import Mathlib

/-!
Verification of the GraphQL error-taxonomy and response-serialization slice of
`graph-node` (files `graph/src/data/query/error.rs` and
`server/http/src/response.rs`).

The Rust code is shallowly embedded: the error enums become inductives, the
`Display` impls become string-valued functions, the serde `Serialize` impls
become functions into an ordered JSON model (`Json.obj` keeps insertion
order, mirroring serde map entry order), and every `unwrap`/index that can
panic becomes an `Option` returning `none` on the panicking path.
-/

namespace GraphNode

/-- Ordered JSON model. serde writes map entries in call order, so objects
are ordered association lists. Numbers that occur here are the `u32`/`usize`
line and column values, modelled as `Nat`. -/
inductive Json where
  | str : String → Json
  | num : Nat → Json
  | bool : Bool → Json
  | arr : List Json → Json
  | obj : List (String × Json) → Json

/-- The newline character, written via its code point. -/
def nlChar : Char := Char.ofNat 10

/-- The single-quote character, written via its code point. -/
def squoteChar : Char := Char.ofNat 39

/-- The colon character. -/
def colonChar : Char := Char.ofNat 58

/-- `s` contains no newline character. -/
def noNL (s : String) : Prop := ∀ c ∈ s.data, c ≠ nlChar

instance (s : String) : Decidable (noNL s) := by
  unfold noNL; infer_instance

/-- Rust `Vec::join(sep)`: interleave `sep` between the elements. -/
def joinSep (sep : String) : List String → String
  | [] => ""
  | [x] => x
  | x :: y :: ys => x ++ sep ++ joinSep sep (y :: ys)

/-- One decimal digit character (for `k < 10`; callers pass `k % 10`). -/
def digitChar (k : Nat) : Char := Char.ofNat (48 + k % 10)

/-- Decimal digit list of `n`, most significant first; `fuel` bounds the
recursion and any `fuel > n` is enough. -/
def natDigits : Nat → Nat → List Char
  | 0, _ => []
  | fuel + 1, n =>
    if n < 10 then [digitChar n]
    else natDigits fuel (n / 10) ++ [digitChar (n % 10)]

/-- Rust `{}` display of an unsigned integer: plain decimal. -/
def natRepr (n : Nat) : String := String.mk (natDigits (n + 1) n)

/-- Rust `str::replace(pat, "")` on char lists: delete every left-to-right
non-overlapping occurrence of `pat`. `fuel` bounds the recursion; any
`fuel ≥ s.length` is enough since each step consumes at least one char. -/
def replaceAllAux (pat : List Char) : Nat → List Char → List Char
  | 0, s => s
  | _ + 1, [] => []
  | fuel + 1, c :: cs =>
    if pat ≠ [] ∧ pat.isPrefixOf (c :: cs) then
      replaceAllAux pat fuel (List.drop pat.length (c :: cs))
    else
      c :: replaceAllAux pat fuel cs

/-- Delete every occurrence of `pat` from `s` (Rust `s.replace(pat, "")`). -/
def replaceAll (pat s : List Char) : List Char := replaceAllAux pat s.length s

/-- Rust `str::trim`: drop whitespace from both ends. -/
def trimChars (s : List Char) : List Char :=
  ((s.dropWhile Char.isWhitespace).reverse.dropWhile Char.isWhitespace).reverse

/-- Rust `str::splitn(2, c)`: split at the first occurrence of `c` only,
yielding one part (no occurrence) or two parts. -/
def splitn2 (c : Char) : List Char → List (List Char)
  | [] => [[]]
  | x :: xs =>
    if x = c then [[], xs]
    else
      match splitn2 c xs with
      | [] => [[x]]
      | p :: rest => (x :: p) :: rest

/-- Rust `str::rfind(c)`: index of the last occurrence of `c`. -/
def rfindIdx (c : Char) : List Char → Option Nat
  | [] => none
  | x :: xs =>
    match rfindIdx c xs with
    | some i => some (i + 1)
    | none => if x = c then some 0 else none

/-- Rust `char::is_numeric`, restricted to the ASCII digits that the
diagnostics in question contain. -/
def isNumericChar (c : Char) : Bool := c.isDigit

/-- Value of a list of decimal digit characters. -/
def digitsToNat (s : List Char) : Nat :=
  s.foldl (fun acc c => acc * 10 + (c.toNat - 48)) 0

/-- Rust `str::parse::<u32>()` on the digit-filtered strings produced by the
serializer: succeeds exactly on a non-empty all-digit string whose value
fits in a `u32`. -/
def parseU32 (s : List Char) : Option Nat :=
  if s ≠ [] ∧ s.all isNumericChar ∧ digitsToNat s < 4294967296 then
    some (digitsToNat s)
  else none

/-- `graphql_parser::Pos`: a source position with 1-based `line`/`column`
(`usize` fields, modelled as `Nat`). -/
structure Pos where
  line : Nat
  column : Nat

/-- Modelled from the spec: `graphql_parser::query::Value` is an external
collaborator ("serialized slow-path value" is opaque to this core), as is
`SerializableValue` (repo code outside the verified slice). A value is
carried as its `Display` rendering, its `Debug` rendering and its
serialized JSON form — the only three ways this slice ever consumes it. -/
structure QValue where
  display : String
  debugRender : String
  toJson : Json

/-- `CloneableFailureError`: an `Arc<failure::Error>`. The wrapped
`failure::Error` is external; it is carried as its `Display` text, the only
way this slice consumes it. -/
structure CloneableFailureError where
  msg : String

/-- Modelled from the spec: `SubgraphDeploymentId` lives outside the
verified slice and is never displayed by the arm that carries it, so it is
opaque here. -/
structure SubgraphDeploymentId where
  id : String

/-- `std::string::FromUtf8Error` is external; carried as its `Display`
text, the only way this slice consumes it. -/
structure FromUtf8Err where
  msg : String

/-- `QueryExecutionError` from `graph/src/data/query/error.rs`: the closed
error taxonomy, one constructor per Rust variant, fields in source order.
`u32`/`u64`/`u8` fields become `Nat`, `Vec<&str>`/`Vec<String>` become
`List String`. -/
inductive QueryExecutionError where
  | OperationNameRequired
  | OperationNotFound (s : String)
  | NotSupported (s : String)
  | NoRootQueryObjectType
  | NoRootSubscriptionObjectType
  | NonNullError (p : Pos) (s : String)
  | ListValueError (p : Pos) (s : String)
  | NamedTypeError (s : String)
  | AbstractTypeError (s : String)
  | InvalidArgumentError (p : Pos) (s : String) (v : QValue)
  | MissingArgumentError (p : Pos) (s : String)
  | InvalidVariableTypeError (p : Pos) (s : String)
  | MissingVariableError (p : Pos) (s : String)
  | ResolveEntityError (d : SubgraphDeploymentId) (entity eid e : String)
  | ResolveEntitiesError (e : String)
  | OrderByNotSupportedError (entity field : String)
  | OrderByNotSupportedForType (fieldType : String)
  | FilterNotSupportedError (value filter : String)
  | UnknownField (p : Pos) (t s : String)
  | EmptyQuery
  | MultipleSubscriptionFields
  | SubgraphDeploymentIdError (s : String)
  | RangeArgumentsError (args : List String) (firstLimit : Nat)
  | InvalidFilterError
  | EntityFieldError (e a : String)
  | ListTypesError (s : String) (v : List String)
  | ListFilterError (s : String)
  | ValueParseError (t e : String)
  | AttributeTypeError (value ty : String)
  | EntityParseError (s : String)
  | StoreError (e : CloneableFailureError)
  | Timeout
  | EmptySelectionSet (entityType : String)
  | AmbiguousDerivedFromResult (p : Pos) (field targetType targetField : String)
  | Unimplemented (feature : String)
  | EnumCoercionError (p : Pos) (field : String) (value : QValue)
      (enumType : String) (values : List String)
  | ScalarCoercionError (p : Pos) (field : String) (value : QValue)
      (scalarType : String)
  | TooComplex (complexity maxComplexity : Nat)
  | TooDeep (maxDepth : Nat)
  | TooExpensive
  | Throttled
  | UndefinedFragment (fragName : String)
  | IncorrectPrefetchResult (slow prefetch : QValue)
  | Panic (msg : String)
  | EventStreamError
  | FulltextQueryRequiresFilter

/-- `QueryError` from `graph/src/data/query/error.rs`. `ParseError` carries
an `Arc<anyhow::Error>`, consumed only through its `Display` text, so it is
carried as that diagnostic text. -/
inductive QueryError where
  | EncodingError (e : FromUtf8Err)
  | ParseError (diag : String)
  | ExecutionError (e : QueryExecutionError)

/-- Modelled from the spec: `QueryResult` (the success payload) lives
outside the verified slice; its serialization is opaque ("body is whatever
the success payload serializes to, unchanged"). -/
structure QueryResult where
  toJson : Json

/-- Modelled from the spec: the `GraphQLServerError` declaration lives
outside the verified slice; the spec gives its four categories
(client-input error, request failure, canceled, internal error) and the
exhaustive match in `server/http/src/response.rs` fixes the constructors. -/
inductive GraphQLServerError where
  | ClientError (s : String)
  | QueryError (e : QueryError)
  | Canceled
  | InternalError (s : String)

/-- One clause of the `RangeArgumentsError` message (the `match *arg` inside
its `Display` arm). -/
def rangeClause (firstLimit : Nat) (arg : String) : String :=
  if arg = "first" then
    "Value of \"first\" must be between 1 and " ++ natRepr firstLimit
  else if arg = "skip" then
    "Value of \"skip\" must be greater than 0"
  else
    "Value of \"" ++ arg ++ "\" is must be an integer"

/-- `impl fmt::Display for QueryExecutionError`, arm by arm. Rust string
continuations (`\` + newline) splice the pieces with no newline, so every
template here is the spliced single-line literal. -/
def displayQEE : QueryExecutionError → String
  | .OperationNameRequired => "Operation name required"
  | .OperationNotFound s => "Operation name not found `" ++ s ++ "`"
  | .NotSupported s => "Not supported: " ++ s
  | .NoRootQueryObjectType => "No root Query type defined in the schema"
  | .NoRootSubscriptionObjectType =>
    "No root Subscription type defined in the schema"
  | .NonNullError _ s => "Null value resolved for non-null field `" ++ s ++ "`"
  | .ListValueError _ s => "Non-list value resolved for list field `" ++ s ++ "`"
  | .NamedTypeError s => "Failed to resolve named type `" ++ s ++ "`"
  | .AbstractTypeError s => "Failed to resolve abstract type `" ++ s ++ "`"
  | .InvalidArgumentError _ s v =>
    "Invalid value provided for argument `" ++ s ++ "`: " ++ v.debugRender
  | .MissingArgumentError _ s =>
    "No value provided for required argument: `" ++ s ++ "`"
  | .InvalidVariableTypeError _ s => "Variable `" ++ s ++ "` must have an input type"
  | .MissingVariableError _ s =>
    "No value provided for required variable `" ++ s ++ "`"
  | .ResolveEntityError _ entity eid e =>
    "Failed to get `" ++ entity ++ "` entity with ID `" ++ eid ++
      "` from store: " ++ e
  | .ResolveEntitiesError e => "Failed to get entities from store: " ++ e
  | .OrderByNotSupportedError entity field =>
    "Ordering by `" ++ field ++ "` is not supported for type `" ++ entity ++ "`"
  | .OrderByNotSupportedForType fieldType =>
    "Ordering by `" ++ fieldType ++ "` fields is not supported"
  | .FilterNotSupportedError value filter =>
    "Filter not supported by value `" ++ value ++ "`: `" ++ filter ++ "`"
  | .UnknownField _ t s => "Type `" ++ t ++ "` has no field `" ++ s ++ "`"
  | .EmptyQuery => "The query is empty"
  | .MultipleSubscriptionFields =>
    "Only a single top-level field is allowed in subscriptions"
  | .SubgraphDeploymentIdError s =>
    "Failed to get subgraph ID from type: `" ++ s ++ "`"
  | .RangeArgumentsError args firstLimit =>
    joinSep ", " (args.map (rangeClause firstLimit))
  | .InvalidFilterError => "Filter must by an object"
  | .EntityFieldError e a => "Entity `" ++ e ++ "` has no attribute `" ++ a ++ "`"
  | .ListTypesError s v =>
    "Values passed to filter `" ++ s ++
      "` must be of the same type but are of different types: " ++
      joinSep ", " v
  | .ListFilterError s => "Non-list value passed to `" ++ s ++ "` filter"
  | .ValueParseError t e => "Failed to decode `" ++ t ++ "` value: `" ++ e ++ "`"
  | .AttributeTypeError value ty =>
    "Query contains value with invalid type `" ++ ty ++ "`: `" ++ value ++ "`"
  | .EntityParseError s => "Broken entity found in store: " ++ s
  | .StoreError e => "Store error: " ++ e.msg
  | .Timeout => "Query timed out"
  | .EmptySelectionSet entityType =>
    "Selection set for type `" ++ entityType ++ "` is empty"
  | .AmbiguousDerivedFromResult _ field targetType targetField =>
    "Ambiguous result for derived field `" ++ field ++ "`: Multiple `" ++
      targetType ++ "` entities refer back via `" ++ targetField ++ "`"
  | .Unimplemented feature => "Feature `" ++ feature ++ "` is not yet implemented"
  | .EnumCoercionError _ field value enumType values =>
    "Failed to coerce value `" ++ value.display ++ "` of field `" ++ field ++
      "` to enum type `" ++ enumType ++ "`. Possible values are: " ++
      joinSep ", " values
  | .ScalarCoercionError _ field value scalarType =>
    "Failed to coerce value `" ++ value.display ++ "` of field `" ++ field ++
      "` to scalar type `" ++ scalarType ++ "`"
  | .TooComplex complexity maxComplexity =>
    "query potentially returns `" ++ natRepr complexity ++
      "` entities or more and thereby exceeds the limit of `" ++
      natRepr maxComplexity ++
      "` entities. Possible solutions are reducing the depth of the query, querying fewer relationships or using `first` to return smaller collections"
  | .TooDeep maxDepth =>
    "query has a depth that exceeds the limit of `" ++ natRepr maxDepth ++ "`"
  | .TooExpensive => "query is too expensive"
  | .Throttled =>
    "service is overloaded and can not run the query right now. Please try again in a few minutes"
  | .UndefinedFragment fragName => "fragment `" ++ fragName ++ "` is not defined"
  | .IncorrectPrefetchResult _ _ =>
    "Running query with prefetch and slow query resolution yielded different results. This is a bug. Please open an issue at https://github.com/graphprotocol/graph-node"
  | .Panic msg => "panic processing query: " ++ msg
  | .EventStreamError => "error in the subscription event stream"
  | .FulltextQueryRequiresFilter =>
    "fulltext search queries can only use EntityFilter::Equal"

/-- `impl fmt::Display for QueryError`: delegate to the wrapped error. -/
def displayQueryError : QueryError → String
  | .EncodingError e => e.msg
  | .ParseError diag => diag
  | .ExecutionError e => displayQEE e

/-- The ten position-carrying arms of `impl Serialize for QueryError`
(error.rs lines 364-373): the `pos` each of them binds. Every other variant
falls to the catch-all and yields `none`. -/
def positionOf : QueryExecutionError → Option Pos
  | .NonNullError p _ => some p
  | .ListValueError p _ => some p
  | .InvalidArgumentError p _ _ => some p
  | .MissingArgumentError p _ => some p
  | .InvalidVariableTypeError p _ => some p
  | .MissingVariableError p _ => some p
  | .AmbiguousDerivedFromResult p _ _ _ => some p
  | .EnumCoercionError p _ _ _ _ => some p
  | .ScalarCoercionError p _ _ _ => some p
  | .UnknownField p _ _ => some p
  | _ => none

/-- The `IncorrectPrefetchResult { slow, prefetch }` arm of the serializer:
its two bound values, or `none` for every other variant. -/
def asIncorrectPrefetch : QueryExecutionError → Option (QValue × QValue)
  | .IncorrectPrefetchResult slow prefetch => some (slow, prefetch)
  | _ => none

/-- The `locations` entry written by the serializer: a one-element array
holding a `{line, column}` object (the Rust `HashMap` is written here in
insertion order). -/
def locationsEntry (line column : Nat) : String × Json :=
  ("locations",
    Json.arr [Json.obj [("line", Json.num line), ("column", Json.num column)]])

/-- Entries written for `QueryError::ExecutionError(e)` by
`impl Serialize for QueryError`: the `IncorrectPrefetchResult` arm writes
`incorrectPrefetch`/`single`/`prefetch`/`message`; the ten position arms
write `locations` then `message`; the catch-all writes `message` alone.
The message is always the `Display` text of the error. -/
def execErrorEntries (e : QueryExecutionError) : List (String × Json) :=
  match asIncorrectPrefetch e with
  | some (slow, prefetch) =>
    [("incorrectPrefetch", Json.bool true),
     ("single", slow.toJson),
     ("prefetch", prefetch.toJson),
     ("message", Json.str (displayQEE e))]
  | none =>
    match positionOf e with
    | some p =>
      [locationsEntry p.line p.column, ("message", Json.str (displayQEE e))]
    | none => [("message", Json.str (displayQEE e))]

/-- The label stripped from a parse diagnostic. -/
def parseErrLabel : String := "query parse error:"

/-- `ParseError` arm, step 1: `msg.replace("query parse error:", "")`
followed by `.trim()`. -/
def parseErrInner (diag : String) : List Char :=
  trimChars (replaceAll parseErrLabel.data diag.data)

/-- `ParseError` arm, step 2: `inner_msg.splitn(2, '\n').collect()`. -/
def parseErrParts (diag : String) : List (List Char) :=
  splitn2 nlChar (parseErrInner diag)

/-- `parts[0]`: the first line of the trimmed diagnostic (`splitn` always
yields at least one part). -/
def parseErrFirst (diag : String) : List Char := (parseErrParts diag).headD []

/-- Entries written for `QueryError::ParseError`: find the last colon of the
first line (`rfind(':').unwrap()`), parse the digit runs on each side as
line and column (`parse().unwrap()`), write `locations`, and use the
remainder after the first line (`parts[1]`) as the message. Each `unwrap`
and the `parts[1]` index can panic, modelled as `none`. -/
def parseErrorEntries (diag : String) : Option (List (String × Json)) :=
  match rfindIdx colonChar (parseErrFirst diag) with
  | none => none
  | some colonPos =>
    match parseU32 (((parseErrFirst diag).take colonPos).filter isNumericChar),
        parseU32 (((parseErrFirst diag).drop colonPos).filter isNumericChar) with
    | some line, some column =>
      match (parseErrParts diag).get? 1 with
      | some rest =>
        some [locationsEntry line column,
              ("message", Json.str (String.mk rest))]
      | none => none
    | _, _ => none

/-- The ordered entries `impl Serialize for QueryError` writes into its map,
`none` when serialization panics. -/
def errorEntries : QueryError → Option (List (String × Json))
  | .EncodingError e => some [("message", Json.str e.msg)]
  | .ParseError diag => parseErrorEntries diag
  | .ExecutionError e => some (execErrorEntries e)

/-- Is this the `IncorrectPrefetchResult` case of an execution error? -/
def isIncorrectPrefetchB : QueryError → Bool
  | .ExecutionError e => (asIncorrectPrefetch e).isSome
  | _ => false

/-- Does the serializer write a `locations` entry for this error (when it
succeeds at all)? -/
def writesLocationsB : QueryError → Bool
  | .ParseError _ => true
  | .ExecutionError e => (positionOf e).isSome
  | _ => false

/-- `entry_count` (error.rs lines 315-323): the length hint passed to
`serialize_map` — 3 for `IncorrectPrefetchResult`, 1 for everything else. -/
def entryCountHint (e : QueryError) : Nat :=
  if isIncorrectPrefetchB e then 3 else 1

/-- `impl Serialize for QueryError` as a whole: the finished JSON object,
`none` when serialization panics. -/
def serializeQueryError (e : QueryError) : Option Json :=
  (errorEntries e).map Json.obj

/-- Modelled from the spec: `GraphQLServerError`'s `Serialize` impl lives
outside the verified slice. Per the spec's wire contract and the fixed
message texts asserted by the response.rs tests, `QueryError` delegates to
the wrapped error's serialization and the other categories serialize as a
message-only object with their `Display` text. -/
def serializeServerError : GraphQLServerError → Option Json
  | .ClientError s =>
    some (Json.obj
      [("message", Json.str ("GraphQL server error (client error): " ++ s))])
  | .QueryError e => serializeQueryError e
  | .Canceled =>
    some (Json.obj
      [("message", Json.str "GraphQL server error (query was canceled)")])
  | .InternalError s =>
    some (Json.obj
      [("message", Json.str ("GraphQL server error (internal error): " ++ s))])

/-- `impl Serialize for GraphQLResponse` (response.rs lines 35-50): a
success serializes as the payload itself; a failure serializes as a map
with the single entry `errors` holding the one-element vector `vec![e]`. -/
def serializeResponse : Except GraphQLServerError QueryResult → Option Json
  | .ok result => some result.toJson
  | .error e =>
    (serializeServerError e).map fun j => Json.obj [("errors", Json.arr [j])]

/-- `GraphQLResponse::status_code_from_result` (response.rs lines 22-32),
with status codes as their numeric values. -/
def statusCodeFromResult : Except GraphQLServerError QueryResult → Nat
  | .ok _ => 200
  | .error (.ClientError _) | .error (.QueryError _) => 400
  | .error .Canceled | .error (.InternalError _) => 500

/-- The three "store/internal error and consistency-check failure" kinds
named by the spec: `StoreError`, `Panic`, `IncorrectPrefetchResult`. -/
def isInternalKindB : QueryExecutionError → Bool
  | .StoreError _ => true
  | .Panic _ => true
  | .IncorrectPrefetchResult _ _ => true
  | _ => false

/-- The concrete parse diagnostic of the spec's parse-failure scenario:
`"query parse error:1,1: unexpected character '<'\nExpected ..."`. -/
def c3Diagnostic : String :=
  "query parse error:1,1: unexpected character " ++
    String.singleton squoteChar ++ "<" ++ String.singleton squoteChar ++
    "\nExpected ..."

/-- Is this the `ParseError` case? -/
def isParseErrB : QueryError → Bool
  | .ParseError _ => true
  | _ => false

/-- Per-variant cleanliness of the carried data, as used by the `Display`
arm of each variant: every string the arm interpolates is newline-free, and
`RangeArgumentsError` carries at least one argument name. Fields an arm
never displays are unconstrained. -/
def cleanQEE : QueryExecutionError → Prop
  | .OperationNotFound s => noNL s
  | .NotSupported s => noNL s
  | .NonNullError _ s => noNL s
  | .ListValueError _ s => noNL s
  | .NamedTypeError s => noNL s
  | .AbstractTypeError s => noNL s
  | .InvalidArgumentError _ s v => noNL s ∧ noNL v.debugRender
  | .MissingArgumentError _ s => noNL s
  | .InvalidVariableTypeError _ s => noNL s
  | .MissingVariableError _ s => noNL s
  | .ResolveEntityError _ entity eid e => noNL entity ∧ noNL eid ∧ noNL e
  | .ResolveEntitiesError e => noNL e
  | .OrderByNotSupportedError entity field => noNL entity ∧ noNL field
  | .OrderByNotSupportedForType fieldType => noNL fieldType
  | .FilterNotSupportedError value filter => noNL value ∧ noNL filter
  | .UnknownField _ t s => noNL t ∧ noNL s
  | .SubgraphDeploymentIdError s => noNL s
  | .RangeArgumentsError args _ => args ≠ [] ∧ ∀ a ∈ args, noNL a
  | .EntityFieldError e a => noNL e ∧ noNL a
  | .ListTypesError s v => noNL s ∧ ∀ x ∈ v, noNL x
  | .ListFilterError s => noNL s
  | .ValueParseError t e => noNL t ∧ noNL e
  | .AttributeTypeError value ty => noNL value ∧ noNL ty
  | .EntityParseError s => noNL s
  | .StoreError e => noNL e.msg
  | .EmptySelectionSet entityType => noNL entityType
  | .AmbiguousDerivedFromResult _ field targetType targetField =>
    noNL field ∧ noNL targetType ∧ noNL targetField
  | .Unimplemented feature => noNL feature
  | .EnumCoercionError _ field value enumType values =>
    noNL field ∧ noNL value.display ∧ noNL enumType ∧ ∀ x ∈ values, noNL x
  | .ScalarCoercionError _ field value scalarType =>
    noNL field ∧ noNL value.display ∧ noNL scalarType
  | .UndefinedFragment fragName => noNL fragName
  | .Panic msg => noNL msg
  | _ => True

/-- The value under the `locations` key of the serialized error object, if
any. -/
def storedLocations (e : QueryError) : Option Json :=
  (errorEntries e).bind fun l => l.lookup "locations"

/-! ### Helper lemmas -/

theorem noNL_append {a b : String} (ha : noNL a) (hb : noNL b) :
    noNL (a ++ b) := by
  intro c hc
  rw [String.data_append] at hc
  rcases List.mem_append.mp hc with h | h
  · exact ha c h
  · exact hb c h

theorem append_ne_empty_left {a : String} (h : a ≠ "") (b : String) :
    a ++ b ≠ "" := by
  intro hab
  have hd : (a ++ b).data = [] := by rw [hab]
  rw [String.data_append] at hd
  exact h (String.ext (List.append_eq_nil.mp hd).1)

theorem digitChar_ne_nl (k : Nat) : digitChar k ≠ nlChar := by
  have h : ∀ m, m < 10 → Char.ofNat (48 + m) ≠ nlChar := by decide
  exact h (k % 10) (Nat.mod_lt _ (by decide))

theorem natDigits_ne_nl (fuel n : Nat) : ∀ c ∈ natDigits fuel n, c ≠ nlChar := by
  induction fuel generalizing n with
  | zero => intro c hc; cases hc
  | succ fuel ih =>
    intro c hc
    unfold natDigits at hc
    by_cases h : n < 10
    · rw [if_pos h] at hc
      have : c = digitChar n := List.mem_singleton.mp hc
      rw [this]
      exact digitChar_ne_nl n
    · rw [if_neg h] at hc
      rcases List.mem_append.mp hc with hc | hc
      · exact ih (n / 10) c hc
      · have : c = digitChar (n % 10) := List.mem_singleton.mp hc
        rw [this]
        exact digitChar_ne_nl (n % 10)

theorem noNL_natRepr (n : Nat) : noNL (natRepr n) := by
  intro c hc
  exact natDigits_ne_nl (n + 1) n c hc

theorem noNL_joinSep {sep : String} (hsep : noNL sep) :
    ∀ {l : List String}, (∀ s ∈ l, noNL s) → noNL (joinSep sep l)
  | [], _ => by intro c hc; cases hc
  | [x], h => by
    have := h x (by simp)
    simpa [joinSep] using this
  | x :: y :: ys, h => by
    show noNL (x ++ sep ++ joinSep sep (y :: ys))
    exact noNL_append
      (noNL_append (h x (by simp)) hsep)
      (noNL_joinSep hsep (fun s hs => h s (List.mem_cons_of_mem _ hs)))

theorem joinSep_ne_empty {sep : String} {l : List String}
    (hl : l ≠ []) (h : ∀ s ∈ l, s ≠ "") : joinSep sep l ≠ "" := by
  match l with
  | [] => exact absurd rfl hl
  | [x] => exact h x (by simp)
  | x :: y :: ys =>
    show x ++ sep ++ joinSep sep (y :: ys) ≠ ""
    exact append_ne_empty_left (append_ne_empty_left (h x (by simp)) sep) _

theorem rangeClause_ne_empty (limit : Nat) (arg : String) :
    rangeClause limit arg ≠ "" := by
  unfold rangeClause
  split
  · exact append_ne_empty_left (by decide) _
  · split
    · decide
    · exact append_ne_empty_left (append_ne_empty_left (by decide) arg) _

theorem noNL_rangeClause (limit : Nat) {arg : String} (h : noNL arg) :
    noNL (rangeClause limit arg) := by
  unfold rangeClause
  split
  · exact noNL_append (by decide) (noNL_natRepr _)
  · split
    · decide
    · exact noNL_append (noNL_append (by decide) h) (by decide)

/-! ### Claim theorems -/

/-- C1: `status_code_from_result` is a pure total function of the outcome's
top-level category: success maps to 200, a client-input error or query
(request) failure maps to 400, and a canceled or internal error maps to
500, for every value carried by each category. -/
theorem statusMappingTotal :
    (∀ r : QueryResult, statusCodeFromResult (.ok r) = 200) ∧
    (∀ s, statusCodeFromResult (.error (.ClientError s)) = 400) ∧
    (∀ e, statusCodeFromResult (.error (.QueryError e)) = 400) ∧
    statusCodeFromResult (.error .Canceled) = 500 ∧
    (∀ s, statusCodeFromResult (.error (.InternalError s)) = 500) :=
  ⟨fun _ => rfl, fun _ => rfl, fun _ => rfl, rfl, fun _ => rfl⟩

/-- C2 counterexample: a store error that reaches the response builder
wrapped as a query failure (the wrapping `From<QueryExecutionError> for
QueryError` produces) is answered with status 400, not 500. -/
theorem storeErrorWrappedAsQueryErrorStatus :
    statusCodeFromResult (.error (.QueryError (.ExecutionError
      (.StoreError ⟨"store failure"⟩)))) = 400 := rfl

/-- C2 amended: the status depends only on the top-level wrapping category.
A store error, panic, or incorrect-prefetch failure wrapped as a query
failure yields 400; only the canceled and internal-error wrappings yield
500. -/
theorem internalKindStatusByWrapping :
    (∀ e : QueryExecutionError, isInternalKindB e = true →
      statusCodeFromResult (.error (.QueryError (.ExecutionError e))) = 400) ∧
    statusCodeFromResult (.error .Canceled) = 500 ∧
    (∀ s, statusCodeFromResult (.error (.InternalError s)) = 500) :=
  ⟨fun _ _ => rfl, rfl, fun _ => rfl⟩

/-- C2 witness: the amended statement at a concrete panic failure. -/
theorem internalKindStatusByWrapping_w :
    statusCodeFromResult (.error (.QueryError (.ExecutionError
      (.Panic "boom")))) = 400 :=
  internalKindStatusByWrapping.1 (.Panic "boom") (by decide)

/-- C7: `RangeArgumentsError(["first","skip","foo"], 100)` displays as
exactly the claimed text; in general there is one clause per argument name
in order, joined with `", "`, where `"first"` uses the limit, `"skip"` uses
fixed text ignoring the limit, and any other name uses the generic clause. -/
theorem rangeArgumentsMessage :
    displayQEE (.RangeArgumentsError ["first", "skip", "foo"] 100) =
      "Value of \"first\" must be between 1 and 100, Value of \"skip\" must be greater than 0, Value of \"foo\" is must be an integer" ∧
    (∀ limit, displayQEE (.RangeArgumentsError ["first"] limit) =
      "Value of \"first\" must be between 1 and " ++ natRepr limit) ∧
    (∀ limit, displayQEE (.RangeArgumentsError ["skip"] limit) =
      "Value of \"skip\" must be greater than 0") ∧
    (∀ limit a, a ≠ "first" → a ≠ "skip" →
      displayQEE (.RangeArgumentsError [a] limit) =
        "Value of \"" ++ a ++ "\" is must be an integer") ∧
    (∀ limit a b rest,
      displayQEE (.RangeArgumentsError (a :: b :: rest) limit) =
        displayQEE (.RangeArgumentsError [a] limit) ++ ", " ++
          displayQEE (.RangeArgumentsError (b :: rest) limit)) := by
  refine ⟨by decide, fun limit => ?_, fun limit => rfl, fun limit a h1 h2 => ?_, fun limit a b rest => rfl⟩
  · simp [displayQEE, joinSep, rangeClause]
  · simp [displayQEE, joinSep, rangeClause, h1, h2]

/-- C7 witness: the generic clause at a concrete argument name. -/
theorem rangeArgumentsMessage_w :
    displayQEE (.RangeArgumentsError ["foo"] 7) =
      "Value of \"" ++ "foo" ++ "\" is must be an integer" :=
  rangeArgumentsMessage.2.2.2.1 7 "foo" (by decide) (by decide)

/-- C3 counterexample: on the claimed diagnostic the serializer produces no
body at all (the `column` parse panics: after the label is stripped the
first line is `1,1: unexpected character '<'`, whose last colon has no
digit to its right), so the claimed `{"errors": [...]}` body is not
produced. -/
theorem parseScenarioBody_cx :
    serializeResponse (.error (.QueryError (.ParseError c3Diagnostic))) =
      none := rfl

/-- C3 amended: serializing a parse failure whose diagnostic text is
`"query parse error:1,1: unexpected character '<'\nExpected ..."` panics
instead of yielding a body — the digit run left of the last first-line
colon is `"11"` and the digit run to its right is empty, so the column
parse fails — while the status such an outcome is classified with is 400. -/
theorem parseScenarioPanics :
    serializeQueryError (.ParseError c3Diagnostic) = none ∧
    statusCodeFromResult (.error (.QueryError (.ParseError c3Diagnostic))) =
      400 :=
  ⟨rfl, rfl⟩

/-- C5: serializing a successful outcome produces exactly the success
payload's own serialization (no `errors` key added), and serializing any
failing outcome that serializes at all produces a body whose single
top-level key is `errors`, holding an array with exactly one error object
(hence no `data` key). -/
theorem responseBodyShape :
    (∀ r : QueryResult, serializeResponse (.ok r) = some r.toJson) ∧
    (∀ e j, serializeResponse (.error e) = some j →
      ∃ inner, j = Json.obj [("errors", Json.arr [inner])]) := by
  refine ⟨fun r => rfl, fun e j h => ?_⟩
  cases he : serializeServerError e with
  | none => simp [serializeResponse, he] at h
  | some inner =>
    refine ⟨inner, ?_⟩
    simp [serializeResponse, he] at h
    exact h.symm

/-- C5 witness: the failure shape at a concrete canceled outcome. -/
theorem responseBodyShape_w :
    ∃ inner, Json.obj [("errors", Json.arr [Json.obj [("message",
      Json.str "GraphQL server error (query was canceled)")]])] =
      Json.obj [("errors", Json.arr [inner])] :=
  responseBodyShape.2 .Canceled _ rfl

/-- C6: for every position-carrying execution-failure variant and every
stored position, the serialized error object contains
`locations: [{line, column}]` equal to the coordinates stored on the
variant. -/
theorem positionVariantsLocations :
    (∀ p s, storedLocations (.ExecutionError (.NonNullError p s)) =
      some (Json.arr [Json.obj
        [("line", Json.num p.line), ("column", Json.num p.column)]])) ∧
    (∀ p s, storedLocations (.ExecutionError (.ListValueError p s)) =
      some (Json.arr [Json.obj
        [("line", Json.num p.line), ("column", Json.num p.column)]])) ∧
    (∀ p s v, storedLocations (.ExecutionError (.InvalidArgumentError p s v)) =
      some (Json.arr [Json.obj
        [("line", Json.num p.line), ("column", Json.num p.column)]])) ∧
    (∀ p s, storedLocations (.ExecutionError (.MissingArgumentError p s)) =
      some (Json.arr [Json.obj
        [("line", Json.num p.line), ("column", Json.num p.column)]])) ∧
    (∀ p s, storedLocations (.ExecutionError (.InvalidVariableTypeError p s)) =
      some (Json.arr [Json.obj
        [("line", Json.num p.line), ("column", Json.num p.column)]])) ∧
    (∀ p s, storedLocations (.ExecutionError (.MissingVariableError p s)) =
      some (Json.arr [Json.obj
        [("line", Json.num p.line), ("column", Json.num p.column)]])) ∧
    (∀ p a b c,
      storedLocations (.ExecutionError (.AmbiguousDerivedFromResult p a b c)) =
      some (Json.arr [Json.obj
        [("line", Json.num p.line), ("column", Json.num p.column)]])) ∧
    (∀ p f v t vs,
      storedLocations (.ExecutionError (.EnumCoercionError p f v t vs)) =
      some (Json.arr [Json.obj
        [("line", Json.num p.line), ("column", Json.num p.column)]])) ∧
    (∀ p f v t,
      storedLocations (.ExecutionError (.ScalarCoercionError p f v t)) =
      some (Json.arr [Json.obj
        [("line", Json.num p.line), ("column", Json.num p.column)]])) ∧
    (∀ p t s, storedLocations (.ExecutionError (.UnknownField p t s)) =
      some (Json.arr [Json.obj
        [("line", Json.num p.line), ("column", Json.num p.column)]])) :=
  ⟨fun _ _ => rfl, fun _ _ => rfl, fun _ _ _ => rfl, fun _ _ => rfl,
   fun _ _ => rfl, fun _ _ => rfl, fun _ _ _ _ => rfl, fun _ _ _ _ _ => rfl,
   fun _ _ _ _ => rfl, fun _ _ _ => rfl⟩

/-- Any successful parse-failure serialization writes exactly the two
entries `locations` then `message`. -/
theorem parseErrorEntries_shape {d : String} {l : List (String × Json)}
    (h : parseErrorEntries d = some l) :
    ∃ line column rest,
      l = [locationsEntry line column, ("message", Json.str rest)] := by
  unfold parseErrorEntries at h
  split at h
  · cases h
  · split at h
    · split at h
      · exact ⟨_, _, _, (Option.some.inj h).symm⟩
      · cases h
    · cases h

/-- C4: for every `IncorrectPrefetchResult` failure, with any slow and
prefetch values, the serialized error object has exactly the four keys
`incorrectPrefetch`, `single`, `prefetch`, `message` in that order (so no
`locations` key); for every other failure that serializes, it has exactly
the key `message` or exactly the keys `locations` and `message`. -/
theorem errorObjectKeys :
    (∀ slow prefetch,
      (errorEntries (.ExecutionError
          (.IncorrectPrefetchResult slow prefetch))).map (List.map Prod.fst) =
        some ["incorrectPrefetch", "single", "prefetch", "message"]) ∧
    (∀ e l, isIncorrectPrefetchB e = false → errorEntries e = some l →
      l.map Prod.fst = ["message"] ∨
      l.map Prod.fst = ["locations", "message"]) := by
  constructor
  · intro slow prefetch; rfl
  · intro e l hip h
    cases e with
    | EncodingError f =>
      have hl := (Option.some.inj h).symm
      subst hl
      left; rfl
    | ParseError d =>
      obtain ⟨line, column, rest, rfl⟩ := parseErrorEntries_shape h
      right; rfl
    | ExecutionError qe =>
      have hl := (Option.some.inj h).symm
      subst hl
      have hq : asIncorrectPrefetch qe = none := by
        cases hq : asIncorrectPrefetch qe with
        | none => rfl
        | some v => simp [isIncorrectPrefetchB, hq] at hip
      cases hp : positionOf qe with
      | none => left; simp [execErrorEntries, hq, hp]
      | some p => right; simp [execErrorEntries, hq, hp, locationsEntry]

/-- C4 witness: a plain message-only failure at a concrete input. -/
theorem errorObjectKeys_w :
    List.map Prod.fst [("message", Json.str "The query is empty")] =
        ["message"] ∨
    List.map Prod.fst [("message", Json.str "The query is empty")] =
        ["locations", "message"] :=
  errorObjectKeys.2 (.ExecutionError .EmptyQuery)
    [("message", Json.str "The query is empty")] (by decide) rfl

/-- C9: serialization of every non-parse failure always succeeds, and the
parse-failure arm fails (panics) on each malformed-diagnostic condition:
no colon in the first line, or a digit run on either side of the last
colon that does not parse as a number. -/
theorem parseOnlyFallible :
    (∀ e, isParseErrB e = false → ∃ l, errorEntries e = some l) ∧
    (∀ d, rfindIdx colonChar (parseErrFirst d) = none →
      errorEntries (.ParseError d) = none) ∧
    (∀ d i, rfindIdx colonChar (parseErrFirst d) = some i →
      parseU32 (((parseErrFirst d).take i).filter isNumericChar) = none →
      errorEntries (.ParseError d) = none) ∧
    (∀ d i, rfindIdx colonChar (parseErrFirst d) = some i →
      parseU32 (((parseErrFirst d).drop i).filter isNumericChar) = none →
      errorEntries (.ParseError d) = none) := by
  refine ⟨fun e he => ?_, fun d h => ?_, fun d i h h2 => ?_, fun d i h h2 => ?_⟩
  · cases e with
    | EncodingError f => exact ⟨_, rfl⟩
    | ParseError d => simp [isParseErrB] at he
    | ExecutionError qe => exact ⟨_, rfl⟩
  · simp [errorEntries, parseErrorEntries, h]
  · simp [errorEntries, parseErrorEntries, h, h2]
  · cases hb : parseU32 (((parseErrFirst d).take i).filter isNumericChar) with
    | none => simp [errorEntries, parseErrorEntries, h, hb]
    | some line => simp [errorEntries, parseErrorEntries, h, hb, h2]

/-- C9 witness: a first line with no colon makes serialization fail. -/
theorem parseOnlyFallible_w :
    errorEntries (.ParseError "nocolonhere") = none :=
  parseOnlyFallible.2.1 "nocolonhere" (by decide)

/-- C10: the map-length hint does not always match the entries written:
`IncorrectPrefetchResult` declares 3 but writes 4; every position-carrying
variant and the (successful) parse-failure case declare 1 but write 2;
only plain message-only failures declare the true count 1. -/
theorem entryCountHintVsWritten :
    ∀ e l, errorEntries e = some l →
      (isIncorrectPrefetchB e = true →
        entryCountHint e = 3 ∧ l.length = 4) ∧
      (isIncorrectPrefetchB e = false →
        entryCountHint e = 1 ∧
        (writesLocationsB e = true → l.length = 2) ∧
        (writesLocationsB e = false → l.length = 1)) := by
  intro e l h
  cases e with
  | EncodingError f =>
    have hl := (Option.some.inj h).symm
    subst hl
    exact ⟨fun hip => by simp [isIncorrectPrefetchB] at hip,
      fun _ => ⟨rfl, fun hw => by simp [writesLocationsB] at hw, fun _ => rfl⟩⟩
  | ParseError d =>
    obtain ⟨line, column, rest, rfl⟩ := parseErrorEntries_shape h
    exact ⟨fun hip => by simp [isIncorrectPrefetchB] at hip,
      fun _ => ⟨rfl, fun _ => rfl,
        fun hw => by simp [writesLocationsB] at hw⟩⟩
  | ExecutionError qe =>
    have hl := (Option.some.inj h).symm
    subst hl
    constructor
    · intro hip
      have hq : ∃ v, asIncorrectPrefetch qe = some v := by
        cases hq : asIncorrectPrefetch qe with
        | none => simp [isIncorrectPrefetchB, hq] at hip
        | some v => exact ⟨v, rfl⟩
      obtain ⟨⟨slow, prefetch⟩, hq⟩ := hq
      refine ⟨by simp [entryCountHint, isIncorrectPrefetchB, hq], ?_⟩
      simp [execErrorEntries, hq]
    · intro hip
      have hq : asIncorrectPrefetch qe = none := by
        cases hq : asIncorrectPrefetch qe with
        | none => rfl
        | some v => simp [isIncorrectPrefetchB, hq] at hip
      refine ⟨by simp [entryCountHint, isIncorrectPrefetchB, hq], ?_, ?_⟩
      · intro hw
        have hp : ∃ p, positionOf qe = some p := by
          cases hp : positionOf qe with
          | none => simp [writesLocationsB, hp] at hw
          | some p => exact ⟨p, rfl⟩
        obtain ⟨p, hp⟩ := hp
        simp [execErrorEntries, hq, hp]
      · intro hw
        have hp : positionOf qe = none := by
          cases hp : positionOf qe with
          | none => rfl
          | some p => simp [writesLocationsB, hp] at hw
        simp [execErrorEntries, hq, hp]

/-- C10 witness: a concrete `IncorrectPrefetchResult` failure declares 3
entries and writes 4; a concrete position-carrying failure declares 1 and
writes 2. -/
theorem entryCountHintVsWritten_w :
    entryCountHint (.ExecutionError (.IncorrectPrefetchResult
        ⟨"1", "1", Json.num 1⟩ ⟨"2", "2", Json.num 2⟩)) = 3 ∧
    (execErrorEntries (.IncorrectPrefetchResult
        ⟨"1", "1", Json.num 1⟩ ⟨"2", "2", Json.num 2⟩)).length = 4 :=
  (entryCountHintVsWritten
    (.ExecutionError (.IncorrectPrefetchResult
        ⟨"1", "1", Json.num 1⟩ ⟨"2", "2", Json.num 2⟩))
    (execErrorEntries (.IncorrectPrefetchResult
        ⟨"1", "1", Json.num 1⟩ ⟨"2", "2", Json.num 2⟩))
    rfl).1 (by decide)

/-- C8 counterexample: `Display` output is not non-empty and single-line
for every variant and all carried values — `RangeArgumentsError([], 100)`
renders as the empty string, and a `Panic` whose message contains a
newline renders with that newline. -/
theorem displayClean_cx :
    displayQEE (.RangeArgumentsError [] 100) = "" ∧
    ¬ noNL (displayQEE (.Panic (String.singleton nlChar))) :=
  ⟨rfl, by decide⟩

set_option maxRecDepth 4000 in
/-- C8 amended: `Display` is deterministic by construction (a pure function
of the variant and its data); its output is non-empty and newline-free for
every variant provided the strings the variant's arm interpolates are
newline-free and `RangeArgumentsError` carries at least one argument. -/
theorem displayCleanSingleLine :
    ∀ e, cleanQEE e → displayQEE e ≠ "" ∧ noNL (displayQEE e) := by
  intro e h
  cases e with
  | OperationNameRequired => exact ⟨by decide, by decide⟩
  | OperationNotFound s =>
    exact ⟨append_ne_empty_left (append_ne_empty_left (by decide) _) _,
      noNL_append (noNL_append (by decide) h) (by decide)⟩
  | NotSupported s =>
    exact ⟨append_ne_empty_left (by decide) _, noNL_append (by decide) h⟩
  | NoRootQueryObjectType => exact ⟨by decide, by decide⟩
  | NoRootSubscriptionObjectType => exact ⟨by decide, by decide⟩
  | NonNullError p s =>
    exact ⟨append_ne_empty_left (append_ne_empty_left (by decide) _) _,
      noNL_append (noNL_append (by decide) h) (by decide)⟩
  | ListValueError p s =>
    exact ⟨append_ne_empty_left (append_ne_empty_left (by decide) _) _,
      noNL_append (noNL_append (by decide) h) (by decide)⟩
  | NamedTypeError s =>
    exact ⟨append_ne_empty_left (append_ne_empty_left (by decide) _) _,
      noNL_append (noNL_append (by decide) h) (by decide)⟩
  | AbstractTypeError s =>
    exact ⟨append_ne_empty_left (append_ne_empty_left (by decide) _) _,
      noNL_append (noNL_append (by decide) h) (by decide)⟩
  | InvalidArgumentError p s v =>
    exact ⟨append_ne_empty_left
        (append_ne_empty_left (append_ne_empty_left (by decide) _) _) _,
      noNL_append (noNL_append (noNL_append (by decide) h.1) (by decide)) h.2⟩
  | MissingArgumentError p s =>
    exact ⟨append_ne_empty_left (append_ne_empty_left (by decide) _) _,
      noNL_append (noNL_append (by decide) h) (by decide)⟩
  | InvalidVariableTypeError p s =>
    exact ⟨append_ne_empty_left (append_ne_empty_left (by decide) _) _,
      noNL_append (noNL_append (by decide) h) (by decide)⟩
  | MissingVariableError p s =>
    exact ⟨append_ne_empty_left (append_ne_empty_left (by decide) _) _,
      noNL_append (noNL_append (by decide) h) (by decide)⟩
  | ResolveEntityError d entity eid e =>
    exact ⟨append_ne_empty_left (append_ne_empty_left (append_ne_empty_left
        (append_ne_empty_left (append_ne_empty_left (by decide) _) _) _) _) _,
      noNL_append (noNL_append (noNL_append (noNL_append (noNL_append
        (by decide) h.1) (by decide)) h.2.1) (by decide)) h.2.2⟩
  | ResolveEntitiesError e =>
    exact ⟨append_ne_empty_left (by decide) _, noNL_append (by decide) h⟩
  | OrderByNotSupportedError entity field =>
    exact ⟨append_ne_empty_left (append_ne_empty_left (append_ne_empty_left
        (append_ne_empty_left (by decide) _) _) _) _,
      noNL_append (noNL_append (noNL_append (noNL_append
        (by decide) h.2) (by decide)) h.1) (by decide)⟩
  | OrderByNotSupportedForType fieldType =>
    exact ⟨append_ne_empty_left (append_ne_empty_left (by decide) _) _,
      noNL_append (noNL_append (by decide) h) (by decide)⟩
  | FilterNotSupportedError value filter =>
    exact ⟨append_ne_empty_left (append_ne_empty_left (append_ne_empty_left
        (append_ne_empty_left (by decide) _) _) _) _,
      noNL_append (noNL_append (noNL_append (noNL_append
        (by decide) h.1) (by decide)) h.2) (by decide)⟩
  | UnknownField p t s =>
    exact ⟨append_ne_empty_left (append_ne_empty_left (append_ne_empty_left
        (append_ne_empty_left (by decide) _) _) _) _,
      noNL_append (noNL_append (noNL_append (noNL_append
        (by decide) h.1) (by decide)) h.2) (by decide)⟩
  | EmptyQuery => exact ⟨by decide, by decide⟩
  | MultipleSubscriptionFields => exact ⟨by decide, by decide⟩
  | SubgraphDeploymentIdError s =>
    exact ⟨append_ne_empty_left (append_ne_empty_left (by decide) _) _,
      noNL_append (noNL_append (by decide) h) (by decide)⟩
  | RangeArgumentsError args firstLimit =>
    refine ⟨joinSep_ne_empty (by simpa using h.1) ?_,
      noNL_joinSep (by decide) ?_⟩
    · intro s hs
      obtain ⟨a, ha, rfl⟩ := List.mem_map.mp hs
      exact rangeClause_ne_empty _ _
    · intro s hs
      obtain ⟨a, ha, rfl⟩ := List.mem_map.mp hs
      exact noNL_rangeClause _ (h.2 a ha)
  | InvalidFilterError => exact ⟨by decide, by decide⟩
  | EntityFieldError e a =>
    exact ⟨append_ne_empty_left (append_ne_empty_left (append_ne_empty_left
        (append_ne_empty_left (by decide) _) _) _) _,
      noNL_append (noNL_append (noNL_append (noNL_append
        (by decide) h.1) (by decide)) h.2) (by decide)⟩
  | ListTypesError s v =>
    exact ⟨append_ne_empty_left
        (append_ne_empty_left (append_ne_empty_left (by decide) _) _) _,
      noNL_append (noNL_append (noNL_append (by decide) h.1) (by decide))
        (noNL_joinSep (by decide) h.2)⟩
  | ListFilterError s =>
    exact ⟨append_ne_empty_left (append_ne_empty_left (by decide) _) _,
      noNL_append (noNL_append (by decide) h) (by decide)⟩
  | ValueParseError t e =>
    exact ⟨append_ne_empty_left (append_ne_empty_left (append_ne_empty_left
        (append_ne_empty_left (by decide) _) _) _) _,
      noNL_append (noNL_append (noNL_append (noNL_append
        (by decide) h.1) (by decide)) h.2) (by decide)⟩
  | AttributeTypeError value ty =>
    exact ⟨append_ne_empty_left (append_ne_empty_left (append_ne_empty_left
        (append_ne_empty_left (by decide) _) _) _) _,
      noNL_append (noNL_append (noNL_append (noNL_append
        (by decide) h.2) (by decide)) h.1) (by decide)⟩
  | EntityParseError s =>
    exact ⟨append_ne_empty_left (by decide) _, noNL_append (by decide) h⟩
  | StoreError e =>
    exact ⟨append_ne_empty_left (by decide) _, noNL_append (by decide) h⟩
  | Timeout => exact ⟨by decide, by decide⟩
  | EmptySelectionSet entityType =>
    exact ⟨append_ne_empty_left (append_ne_empty_left (by decide) _) _,
      noNL_append (noNL_append (by decide) h) (by decide)⟩
  | AmbiguousDerivedFromResult p field targetType targetField =>
    exact ⟨append_ne_empty_left (append_ne_empty_left (append_ne_empty_left
        (append_ne_empty_left (append_ne_empty_left (append_ne_empty_left
          (by decide) _) _) _) _) _) _,
      noNL_append (noNL_append (noNL_append (noNL_append (noNL_append
        (noNL_append (by decide) h.1) (by decide)) h.2.1) (by decide))
        h.2.2) (by decide)⟩
  | Unimplemented feature =>
    exact ⟨append_ne_empty_left (append_ne_empty_left (by decide) _) _,
      noNL_append (noNL_append (by decide) h) (by decide)⟩
  | EnumCoercionError p field value enumType values =>
    exact ⟨append_ne_empty_left (append_ne_empty_left (append_ne_empty_left
        (append_ne_empty_left (append_ne_empty_left (append_ne_empty_left
          (append_ne_empty_left (by decide) _) _) _) _) _) _) _,
      noNL_append (noNL_append (noNL_append (noNL_append (noNL_append
        (noNL_append (noNL_append (by decide) h.2.1) (by decide)) h.1)
        (by decide)) h.2.2.1) (by decide))
        (noNL_joinSep (by decide) h.2.2.2)⟩
  | ScalarCoercionError p field value scalarType =>
    exact ⟨append_ne_empty_left (append_ne_empty_left (append_ne_empty_left
        (append_ne_empty_left (append_ne_empty_left (append_ne_empty_left
          (by decide) _) _) _) _) _) _,
      noNL_append (noNL_append (noNL_append (noNL_append (noNL_append
        (noNL_append (by decide) h.2.1) (by decide)) h.1) (by decide))
        h.2.2) (by decide)⟩
  | TooComplex complexity maxComplexity =>
    exact ⟨append_ne_empty_left (append_ne_empty_left (append_ne_empty_left
        (append_ne_empty_left (by decide) _) _) _) _,
      noNL_append (noNL_append (noNL_append (noNL_append
        (by decide) (noNL_natRepr _)) (by decide)) (noNL_natRepr _))
        (by decide)⟩
  | TooDeep maxDepth =>
    exact ⟨append_ne_empty_left (append_ne_empty_left (by decide) _) _,
      noNL_append (noNL_append (by decide) (noNL_natRepr _)) (by decide)⟩
  | TooExpensive => exact ⟨by decide, by decide⟩
  | Throttled => exact ⟨by decide, by decide⟩
  | UndefinedFragment fragName =>
    exact ⟨append_ne_empty_left (append_ne_empty_left (by decide) _) _,
      noNL_append (noNL_append (by decide) h) (by decide)⟩
  | IncorrectPrefetchResult slow prefetch =>
    refine ⟨?_, ?_⟩ <;> simp only [displayQEE] <;> decide
  | Panic msg =>
    exact ⟨append_ne_empty_left (by decide) _, noNL_append (by decide) h⟩
  | EventStreamError => exact ⟨by decide, by decide⟩
  | FulltextQueryRequiresFilter => exact ⟨by decide, by decide⟩

/-- C8 witness: the amended statement at a concrete panic message. -/
theorem displayCleanSingleLine_w :
    displayQEE (.Panic "boom") ≠ "" ∧ noNL (displayQEE (.Panic "boom")) :=
  displayCleanSingleLine (.Panic "boom") (show noNL "boom" by decide)

end GraphNode
